import Mathlib

/-!
Shallow embedding of `src/main.js` of wind-leaflet-velocity: the
`fetchWindData` retry/validation pipeline and the `loadWindData`
presenter.  JavaScript values are modelled by an inductive `JSVal`
(numbers are exact integers plus NaN — the script only multiplies grid
dimensions and compares numbers by strict equality, so IEEE-754
rounding plays no role), thrown exceptions by `Except Unit`,
and the observable side effects (console.error / console.warn /
alert / the retry delays / the single `L.velocityLayer` call) by
explicit result records.  The fetch environment is a function from the
attempt index to that attempt's outcome.
-/

set_option autoImplicit false

namespace WindLeaflet

/-- A JavaScript number: either NaN or an (idealised, unbounded,
exact) value. -/
inductive JSNum where
  | nan
  | val (q : ℤ)
deriving DecidableEq, Repr

/-- JavaScript multiplication on numbers: NaN is absorbing. -/
def jsMul : JSNum → JSNum → JSNum
  | .val a, .val b => .val (a * b)
  | _, _ => .nan

/-- A JavaScript value, as far as this script manipulates them. -/
inductive JSVal where
  | vnull
  | vundefined
  | vbool (b : Bool)
  | vnum (n : JSNum)
  | vstr (s : String)
  | varr (xs : List JSVal)
  | vobj (fields : List (String × JSVal))
deriving Repr

/-- JavaScript truthiness: null, undefined, false, NaN, 0 and "" are falsy. -/
def truthy : JSVal → Bool
  | .vnull => false
  | .vundefined => false
  | .vbool b => b
  | .vnum .nan => false
  | .vnum (.val q) => decide (q ≠ 0)
  | .vstr s => decide (s ≠ "")
  | .varr _ => true
  | .vobj _ => true

/-- First binding of a key in an object's field list. -/
def lookupField : List (String × JSVal) → String → Option JSVal
  | [], _ => none
  | (k, v) :: rest, key => if k = key then some v else lookupField rest key

/-- Property access `v.key`.  Reading a property of `null` or `undefined`
throws a TypeError (`Except.error`); on other primitives it yields
`undefined`; arrays and strings expose `length`; objects use their field
list. -/
def getProp : JSVal → String → Except Unit JSVal
  | .vnull, _ => .error ()
  | .vundefined, _ => .error ()
  | .varr xs, key => if key = "length" then .ok (.vnum (.val xs.length)) else .ok .vundefined
  | .vstr s, key => if key = "length" then .ok (.vnum (.val s.length)) else .ok .vundefined
  | .vobj fs, key => .ok ((lookupField fs key).getD .vundefined)
  | _, _ => .ok .vundefined

/-- `Array.isArray`. -/
def isArray : JSVal → Bool
  | .varr _ => true
  | _ => false

/-- JavaScript ToNumber, restricted to the value forms this script can
meet.  String conversion covers integer literals and blank strings;
other strings are NaN.  Arrays and objects are modelled as NaN (their
ToPrimitive path is not exercised by the numeric header fields of a
JSON wind payload). -/
def toNumber : JSVal → JSNum
  | .vnull => .val 0
  | .vundefined => .nan
  | .vbool b => .val (if b then 1 else 0)
  | .vnum n => n
  | .vstr s =>
    if s.trim = "" then .val 0
    else match s.trim.toInt? with
      | some i => .val i
      | none => .nan
  | .varr _ => .nan
  | .vobj _ => .nan

/-- JavaScript strict equality `v === n` against a number: only a
non-NaN number can be strictly equal to a number, and NaN is strictly
equal to nothing. -/
def strictEqNum (v : JSVal) (n : JSNum) : Bool :=
  match v, n with
  | .vnum (.val a), .val b => decide (a = b)
  | _, _ => false

/-- The response-format check of `fetchWindData` (src/main.js line 35):
`!Array.isArray(data) || data.length !== 2 || !data[0].header ||
!data[1].header || !Array.isArray(data[0].data) ||
!Array.isArray(data[1].data)`, with JavaScript short-circuit
evaluation.  Property access on a null element throws, which
propagates to the enclosing catch.  Returns `true` when the format is
invalid. -/
def invalidFormat (data : JSVal) : Except Unit Bool :=
  match data with
  | .varr [e0, e1] =>
    match getProp e0 "header" with
    | .error e => .error e
    | .ok h0 =>
      if truthy h0 = false then .ok true
      else match getProp e1 "header" with
      | .error e => .error e
      | .ok h1 =>
        if truthy h1 = false then .ok true
        else match getProp e0 "data" with
        | .error e => .error e
        | .ok d0 =>
          if isArray d0 = false then .ok true
          else match getProp e1 "data" with
          | .error e => .error e
          | .ok d1 =>
            if isArray d1 = false then .ok true
            else .ok false
  | _ => .ok true

/-- Outcome of one `fetch` of the wind endpoint: the promise rejects
(network failure), or a response arrives with an HTTP status and a
body; `none` for the body means `response.json()` rejects because the
body is not valid JSON. -/
inductive FetchOutcome where
  | networkError
  | response (status : Nat) (body : Option JSVal)

/-- `response.ok`: status in the inclusive range 200..299. -/
def responseOk (status : Nat) : Bool :=
  decide (200 ≤ status ∧ status ≤ 299)

/-- One pass through the try block of `fetchWindData` (src/main.js
lines 19-41): await the fetch, test `response.ok`, parse JSON, run the
format check.  `Except.error` is a thrown error reaching the catch;
`.ok none` is the `return null` after the format alert; `.ok (some d)`
is `return data`. -/
def tryFetchBody (outcome : FetchOutcome) : Except Unit (Option JSVal) :=
  match outcome with
  | .networkError => .error ()
  | .response status body =>
    if responseOk status = false then .error ()
    else match body with
      | none => .error ()
      | some data =>
        match invalidFormat data with
        | .error e => .error e
        | .ok true => .ok none
        | .ok false => .ok (some data)

/-- Observable outcome of a whole `fetchWindData` call: the returned
value, how many fetch attempts ran, the delay (ms) awaited before each
retry, and how many user alerts fired. -/
structure FetchResult where
  result : Option JSVal
  attempts : Nat
  delays : List Nat
  alerts : Nat
deriving Repr

/-- The retry recursion of `fetchWindData`, with the remaining retry
budget `fuel = maxAttempts - attempt` made explicit (the source guard
`attempt < maxAttempts` holds exactly when `fuel > 0`, and the
recursive call at `attempt + 1` has budget `fuel - 1`). -/
def fetchGo (env : Nat → FetchOutcome) (attempt : Nat) (fuel : Nat) : FetchResult :=
  match tryFetchBody (env attempt) with
  | .ok (some data) => { result := some data, attempts := 1, delays := [], alerts := 0 }
  | .ok none => { result := none, attempts := 1, delays := [], alerts := 1 }
  | .error _ =>
    match fuel with
    | 0 => { result := none, attempts := 1, delays := [], alerts := 1 }
    | f + 1 =>
      let r := fetchGo env (attempt + 1) f
      { result := r.result, attempts := r.attempts + 1,
        delays := 2000 :: r.delays, alerts := r.alerts }

/-- `fetchWindData(attempt, maxAttempts)` (src/main.js lines 15-54).
`env i` is the outcome of the i-th fetch attempt. -/
def fetchWindData (env : Nat → FetchOutcome) (attempt : Nat) (maxAttempts : Nat) : FetchResult :=
  fetchGo env attempt (maxAttempts - attempt)

/-- Observable outcome of `loadWindData`: counts of console.error,
console.warn and alert calls, and the payload handed to the single
`L.velocityLayer` call when that call is reached. -/
structure LoadResult where
  errors : Nat
  warns : Nat
  alerts : Nat
  rendered : Option JSVal
deriving Repr

/-- Fields contributed by object spread `...h`: an object's own fields;
a primitive contributes none (string index properties are not
modelled — the headers in play are JSON objects). -/
def spreadFields : JSVal → List (String × JSVal)
  | .vobj fs => fs
  | _ => []

/-- Replace the first binding of a key, keeping its position, or append
the binding: the semantics of overriding a key in an object literal. -/
def setField : List (String × JSVal) → String → JSVal → List (String × JSVal)
  | [], k, v => [(k, v)]
  | (k1, v1) :: rest, k, v =>
    if k1 = k then (k, v) :: rest else (k1, v1) :: setField rest k v

/-- `{ ...header, parameterNumber: pn }` (src/main.js lines 93-96 and
99-102). -/
def tagHeader (header : JSVal) (pn : ℤ) : JSVal :=
  .vobj (setField (spreadFields header) "parameterNumber" (.vnum (.val pn)))

/-- The `windData` value built at src/main.js lines 92-104: the tagged
two-element payload handed to `L.velocityLayer`. -/
def mkWindData (uHeader uDataV vHeader vDataV : JSVal) : JSVal :=
  .varr [ .vobj [("header", tagHeader uHeader 2), ("data", uDataV)],
          .vobj [("header", tagHeader vHeader 3), ("data", vDataV)] ]

/-- `v.some(p)`: defined on arrays; on any other receiver the call
throws (either the property read throws, or `.some` is not a
function). -/
def jsSome (v : JSVal) (p : JSVal → Bool) : Except Unit Bool :=
  match v with
  | .varr xs => .ok (xs.any p)
  | _ => .error ()

/-- `speed !== 0`, the predicate of the meaningful-data check. -/
def nonzeroSpeed (s : JSVal) : Bool :=
  !(strictEqNum s (.val 0))

/-- The body of `loadWindData` after a non-null fetch (src/main.js
lines 61-141): destructure the payload, validate grid lengths against
the U header's `nx * ny`, check for all-zero data, tag the headers and
call the renderer.  Array destructuring of a non-array throws (strings,
though iterable in JavaScript, cannot reach this point: `fetchWindData`
only returns arrays). -/
def loadWindDataBody (data : JSVal) : Except Unit LoadResult :=
  match data with
  | .varr xs =>
    let uComponent := xs.getD 0 .vundefined
    let vComponent := xs.getD 1 .vundefined
    match getProp uComponent "header" with
    | .error e => .error e
    | .ok uHeader =>
    match getProp uComponent "data" with
    | .error e => .error e
    | .ok uDataV =>
    match getProp vComponent "header" with
    | .error e => .error e
    | .ok vHeader =>
    match getProp vComponent "data" with
    | .error e => .error e
    | .ok vDataV =>
    match getProp uDataV "length" with
    | .error e => .error e
    | .ok uLen =>
    match getProp vDataV "length" with
    | .error e => .error e
    | .ok vLen =>
    match getProp uHeader "nx" with
    | .error e => .error e
    | .ok nxV =>
    match getProp uHeader "ny" with
    | .error e => .error e
    | .ok nyV =>
    let expected := jsMul (toNumber nxV) (toNumber nyV)
    if (strictEqNum uLen expected && strictEqNum vLen expected) = false then
      .ok { errors := 1, warns := 0, alerts := 1, rendered := none }
    else
      match jsSome uDataV nonzeroSpeed with
      | .error e => .error e
      | .ok true =>
        .ok { errors := 0, warns := 0, alerts := 0,
              rendered := some (mkWindData uHeader uDataV vHeader vDataV) }
      | .ok false =>
        match jsSome vDataV nonzeroSpeed with
        | .error e => .error e
        | .ok true =>
          .ok { errors := 0, warns := 0, alerts := 0,
                rendered := some (mkWindData uHeader uDataV vHeader vDataV) }
        | .ok false =>
          .ok { errors := 0, warns := 1, alerts := 1, rendered := none }
  | _ => .error ()

/-- `loadWindData` (src/main.js lines 57-142): fetch with
`attempt = 1, maxAttempts = 3`, bail out silently on a null result,
otherwise run the presenter body.  Alerts fired inside `fetchWindData`
are included in the result. -/
def loadWindData (env : Nat → FetchOutcome) : Except Unit LoadResult :=
  let fr := fetchWindData env 1 3
  match fr.result with
  | none => .ok { errors := 0, warns := 0, alerts := fr.alerts, rendered := none }
  | some data =>
    match loadWindDataBody data with
    | .error e => .error e
    | .ok r => .ok { r with alerts := r.alerts + fr.alerts }

/-! ### Sample payloads used by witnesses -/

/-- The end-to-end payload of the spec's scenario: `nx = ny = 2`,
`uData = [1, 0, -1, 2]`, `vData = [0, 1, 1, -2]`. -/
def sampleHeader : JSVal :=
  .vobj [("nx", .vnum (.val 2)), ("ny", .vnum (.val 2))]

def sampleUData : List JSVal :=
  [.vnum (.val 1), .vnum (.val 0), .vnum (.val (-1)), .vnum (.val 2)]

def sampleVData : List JSVal :=
  [.vnum (.val 0), .vnum (.val 1), .vnum (.val 1), .vnum (.val (-2))]

def sampleU : JSVal := .vobj [("header", sampleHeader), ("data", .varr sampleUData)]

def sampleV : JSVal := .vobj [("header", sampleHeader), ("data", .varr sampleVData)]

def sampleBody : JSVal := .varr [sampleU, sampleV]

/-! ### Helper lemmas -/

/-- This outcome is a transport failure or a non-2xx response. -/
def httpFailure : FetchOutcome → Prop
  | .networkError => True
  | .response s _ => ¬(200 ≤ s ∧ s ≤ 299)

theorem tryFetchBody_of_httpFailure {o : FetchOutcome} (h : httpFailure o) :
    tryFetchBody o = .error () := by
  cases o with
  | networkError => rfl
  | response s b =>
    have hs : responseOk s = false := by
      simp only [responseOk]
      exact decide_eq_false h
    simp [tryFetchBody, hs]

/-! ### C1: a 2xx response with a well-shaped body is returned unchanged -/

/-- C1: for every HTTP response with status in [200,299] whose JSON body
is an array of exactly 2 elements, each having a truthy header field and
a data field that is an array, `fetchWindData` returns that body
unchanged (the very same value). -/
theorem fetch_returns_valid_body
    (env : Nat → FetchOutcome) (s : Nat) (u v hu hv : JSVal) (ud vd : List JSVal)
    (henv : env 1 = .response s (some (.varr [u, v])))
    (hs : 200 ≤ s ∧ s ≤ 299)
    (hhu : getProp u "header" = .ok hu) (htu : truthy hu = true)
    (hhv : getProp v "header" = .ok hv) (htv : truthy hv = true)
    (hdu : getProp u "data" = .ok (.varr ud))
    (hdv : getProp v "data" = .ok (.varr vd)) :
    (fetchWindData env 1 3).result = some (.varr [u, v]) := by
  have hval : invalidFormat (.varr [u, v]) = .ok false := by
    simp [invalidFormat, hhu, hhv, hdu, hdv, htu, htv, isArray]
  have hok : responseOk s = true := by
    simp only [responseOk]
    exact decide_eq_true hs
  have htb : tryFetchBody (env 1) = .ok (some (.varr [u, v])) := by
    rw [henv]
    simp [tryFetchBody, hok, hval]
  simp [fetchWindData, fetchGo, htb]

/-- Witness for C1 at the spec's end-to-end sample payload. -/
theorem fetch_returns_valid_body_witness :
    (fetchWindData (fun _ => .response 200 (some sampleBody)) 1 3).result = some sampleBody :=
  fetch_returns_valid_body (fun _ => .response 200 (some sampleBody)) 200
    sampleU sampleV sampleHeader sampleHeader sampleUData sampleVData
    rfl (by decide) rfl rfl rfl rfl rfl rfl

/-! ### C2: non-2xx and transport failures exhaust all three attempts -/

/-- C2: when every attempt meets a non-2xx response or a transport
failure, `fetchWindData` runs exactly `maxAttempts = 3` attempts, each
retry preceded by a 2000 ms delay, returns null, and fires exactly one
terminal alert. -/
theorem fetch_exhausts_on_http_failure (env : Nat → FetchOutcome)
    (h1 : httpFailure (env 1)) (h2 : httpFailure (env 2)) (h3 : httpFailure (env 3)) :
    fetchWindData env 1 3 =
      { result := none, attempts := 3, delays := [2000, 2000], alerts := 1 } := by
  simp [fetchWindData, fetchGo, tryFetchBody_of_httpFailure h1,
        tryFetchBody_of_httpFailure h2, tryFetchBody_of_httpFailure h3]

/-- Witness for C2: a server that always answers 500 with no JSON body. -/
theorem fetch_exhausts_on_http_failure_witness :
    fetchWindData (fun _ => .response 500 none) 1 3 =
      { result := none, attempts := 3, delays := [2000, 2000], alerts := 1 } :=
  fetch_exhausts_on_http_failure (fun _ => .response 500 none)
    (by simp [httpFailure]) (by simp [httpFailure]) (by simp [httpFailure])

/-! ### C3: a 2xx body failing the format check — corrected

The claim says every 2xx JSON body failing structural validation makes
`fetchWindData` return null immediately with zero additional fetch
attempts.  That is false for the body `[null, null]`: it is a
2-element JSON array whose elements lack a header field, but the check
`!data[0].header` throws a TypeError on the null element, the throw is
caught by the catch clause, and the fetch is retried — three attempts
run, not one. -/

/-- An environment whose every attempt yields HTTP 200 with JSON body
`[null, null]`. -/
def nullElemEnv : Nat → FetchOutcome :=
  fun _ => .response 200 (some (.varr [.vnull, .vnull]))

/-- C3 counterexample: on the 200 response with body `[null, null]`
(a body failing structural validation: both elements lack a header
field), the call performs 3 fetch attempts with two retry delays, not
a single attempt. -/
theorem fetch_invalid_body_not_immediate :
    (fetchWindData nullElemEnv 1 3).attempts = 3 ∧
    (fetchWindData nullElemEnv 1 3).delays = [2000, 2000] ∧
    (fetchWindData nullElemEnv 1 3).result = none := ⟨rfl, rfl, rfl⟩

/-- C3 amended: for every 2xx response whose JSON body fails the
structural validation check with the check itself evaluating without a
throw (in particular both elements of a 2-element body are neither
null nor undefined), `fetchWindData` returns null after that single
attempt, with no retry delay and exactly one alert. -/
theorem fetch_invalid_format_returns_null
    (env : Nat → FetchOutcome) (s : Nat) (d : JSVal)
    (henv : env 1 = .response s (some d))
    (hs : 200 ≤ s ∧ s ≤ 299)
    (hinv : invalidFormat d = .ok true) :
    fetchWindData env 1 3 =
      { result := none, attempts := 1, delays := [], alerts := 1 } := by
  have hok : responseOk s = true := by
    simp only [responseOk]
    exact decide_eq_true hs
  have htb : tryFetchBody (env 1) = .ok none := by
    rw [henv]
    simp [tryFetchBody, hok, hinv]
  simp [fetchWindData, fetchGo, htb]

/-- Witness for the amended C3: a 200 response whose body is the empty
array. -/
theorem fetch_invalid_format_returns_null_witness :
    fetchWindData (fun _ => .response 200 (some (.varr []))) 1 3 =
      { result := none, attempts := 1, delays := [], alerts := 1 } :=
  fetch_invalid_format_returns_null (fun _ => .response 200 (some (.varr [])))
    200 (.varr []) rfl (by decide) rfl

/-! ### Presenter-side helper lemmas -/

/-- Evaluation of the presenter body on a structurally well-shaped
payload: the computation reduces to the length check, then the
degeneracy check, then the rendering call. -/
theorem loadWindDataBody_shape_eval
    (u v hu hv nxV nyV : JSVal) (ud vd : List JSVal)
    (hhu : getProp u "header" = .ok hu)
    (hhv : getProp v "header" = .ok hv)
    (hdu : getProp u "data" = .ok (.varr ud))
    (hdv : getProp v "data" = .ok (.varr vd))
    (hnx : getProp hu "nx" = .ok nxV)
    (hny : getProp hu "ny" = .ok nyV) :
    loadWindDataBody (.varr [u, v]) =
      (if (strictEqNum (.vnum (.val ud.length)) (jsMul (toNumber nxV) (toNumber nyV)) &&
           strictEqNum (.vnum (.val vd.length)) (jsMul (toNumber nxV) (toNumber nyV))) = false then
         .ok { errors := 1, warns := 0, alerts := 1, rendered := none }
       else if ud.any nonzeroSpeed then
         .ok { errors := 0, warns := 0, alerts := 0,
               rendered := some (mkWindData hu (.varr ud) hv (.varr vd)) }
       else if vd.any nonzeroSpeed then
         .ok { errors := 0, warns := 0, alerts := 0,
               rendered := some (mkWindData hu (.varr ud) hv (.varr vd)) }
       else .ok { errors := 0, warns := 1, alerts := 1, rendered := none }) := by
  have hlenU : getProp (JSVal.varr ud) "length" = .ok (.vnum (.val ud.length)) := by
    simp [getProp]
  have hlenV : getProp (JSVal.varr vd) "length" = .ok (.vnum (.val vd.length)) := by
    simp [getProp]
  have hsomeU : jsSome (JSVal.varr ud) nonzeroSpeed = .ok (ud.any nonzeroSpeed) := rfl
  have hsomeV : jsSome (JSVal.varr vd) nonzeroSpeed = .ok (vd.any nonzeroSpeed) := rfl
  unfold loadWindDataBody
  simp only [List.getD_cons_zero, List.getD_cons_succ, hhu, hdu, hhv, hdv,
             hlenU, hlenV, hnx, hny, hsomeU, hsomeV]
  cases hua : ud.any nonzeroSpeed <;> cases hva : vd.any nonzeroSpeed <;>
    simp only [hua, hva] <;> rfl

theorem lookupField_setField_self (fs : List (String × JSVal)) (k : String) (w : JSVal) :
    lookupField (setField fs k w) k = some w := by
  induction fs with
  | nil => simp [setField, lookupField]
  | cons p rest ih =>
    obtain ⟨k1, v1⟩ := p
    by_cases h : k1 = k
    · simp [setField, h, lookupField]
    · simp [setField, h, lookupField, ih]

theorem lookupField_setField_other (fs : List (String × JSVal)) (k k2 : String) (w : JSVal)
    (h : k2 ≠ k) :
    lookupField (setField fs k w) k2 = lookupField fs k2 := by
  induction fs with
  | nil => simp [setField, lookupField, Ne.symm h]
  | cons p rest ih =>
    obtain ⟨k1, v1⟩ := p
    by_cases h1 : k1 = k
    · subst h1
      simp [setField, lookupField, Ne.symm h]
    · simp [setField, h1, lookupField, ih]

theorem strictEqNum_nan (w : JSVal) : strictEqNum w .nan = false := by
  cases w with
  | vnum n => cases n <;> rfl
  | vnull => rfl
  | vundefined => rfl
  | vbool b => rfl
  | vstr s => rfl
  | varr xs => rfl
  | vobj fs => rfl

theorem strictEqNum_val_eq {a b : ℤ} (h : strictEqNum (.vnum (.val a)) (.val b) = true) :
    a = b := by
  simpa [strictEqNum] using h

theorem jsMul_nan {a b : JSNum} (h : a = .nan ∨ b = .nan) : jsMul a b = .nan := by
  cases a <;> cases b <;> simp_all [jsMul]

/-! ### C4: length mismatch aborts before rendering -/

/-- C4: on a structurally valid payload whose U-header grid size
`nx * ny` is strictly unequal to the length of `uData` or of `vData`,
the presenter logs the mismatch (one console.error), fires exactly one
alert, and returns without invoking the rendering collaborator. -/
theorem load_aborts_on_length_mismatch
    (u v hu hv nxV nyV : JSVal) (ud vd : List JSVal)
    (hhu : getProp u "header" = .ok hu) (htu : truthy hu = true)
    (hhv : getProp v "header" = .ok hv) (htv : truthy hv = true)
    (hdu : getProp u "data" = .ok (.varr ud))
    (hdv : getProp v "data" = .ok (.varr vd))
    (hnx : getProp hu "nx" = .ok nxV)
    (hny : getProp hu "ny" = .ok nyV)
    (hmis : strictEqNum (.vnum (.val ud.length)) (jsMul (toNumber nxV) (toNumber nyV)) = false ∨
            strictEqNum (.vnum (.val vd.length)) (jsMul (toNumber nxV) (toNumber nyV)) = false) :
    loadWindDataBody (.varr [u, v]) =
      .ok { errors := 1, warns := 0, alerts := 1, rendered := none } := by
  rw [loadWindDataBody_shape_eval u v hu hv nxV nyV ud vd hhu hhv hdu hdv hnx hny]
  have hc : (strictEqNum (.vnum (.val ud.length)) (jsMul (toNumber nxV) (toNumber nyV)) &&
             strictEqNum (.vnum (.val vd.length)) (jsMul (toNumber nxV) (toNumber nyV))) = false := by
    rcases hmis with h | h <;> simp [h]
  simp [hc]

/-- The spec's length-mismatch example: the header declares
`nx = ny = 2` but `uData` has 3 entries. -/
def shortUData : List JSVal := [.vnum (.val 1), .vnum (.val 0), .vnum (.val (-1))]

def shortU : JSVal := .vobj [("header", sampleHeader), ("data", .varr shortUData)]

/-- Witness for C4: header `nx = ny = 2` with a 3-entry `uData`. -/
theorem load_aborts_on_length_mismatch_witness :
    loadWindDataBody (.varr [shortU, sampleV]) =
      .ok { errors := 1, warns := 0, alerts := 1, rendered := none } :=
  load_aborts_on_length_mismatch shortU sampleV sampleHeader sampleHeader
    (.vnum (.val 2)) (.vnum (.val 2)) shortUData sampleVData
    rfl rfl rfl rfl rfl rfl rfl rfl (Or.inl rfl)

/-- On a well-shaped, length-consistent payload with at least one
strictly non-zero sample, the presenter reaches the rendering call with
the tagged payload and no alert. -/
theorem loadWindDataBody_renders
    (u v hu hv nxV nyV : JSVal) (ud vd : List JSVal)
    (hhu : getProp u "header" = .ok hu)
    (hhv : getProp v "header" = .ok hv)
    (hdu : getProp u "data" = .ok (.varr ud))
    (hdv : getProp v "data" = .ok (.varr vd))
    (hnx : getProp hu "nx" = .ok nxV)
    (hny : getProp hu "ny" = .ok nyV)
    (hlen : (strictEqNum (.vnum (.val ud.length)) (jsMul (toNumber nxV) (toNumber nyV)) &&
             strictEqNum (.vnum (.val vd.length)) (jsMul (toNumber nxV) (toNumber nyV))) = true)
    (hnz : (∃ x ∈ ud, strictEqNum x (.val 0) = false) ∨
           (∃ x ∈ vd, strictEqNum x (.val 0) = false)) :
    loadWindDataBody (.varr [u, v]) =
      .ok { errors := 0, warns := 0, alerts := 0,
            rendered := some (mkWindData hu (.varr ud) hv (.varr vd)) } := by
  rw [loadWindDataBody_shape_eval u v hu hv nxV nyV ud vd hhu hhv hdu hdv hnx hny, hlen]
  rcases hnz with ⟨x, hx, hxf⟩ | ⟨x, hx, hxf⟩
  · have h1 : ud.any nonzeroSpeed = true :=
      List.any_eq_true.2 ⟨x, hx, by simp [nonzeroSpeed, hxf]⟩
    simp [h1]
  · cases h1 : ud.any nonzeroSpeed
    · have h2 : vd.any nonzeroSpeed = true :=
        List.any_eq_true.2 ⟨x, hx, by simp [nonzeroSpeed, hxf]⟩
      simp [h2]
    · simp

/-! ### C5: all-zero data aborts with a warning; non-zero data does not -/

/-- C5: on a structurally valid, length-consistent payload, if every
sample of both `uData` and `vData` is strictly equal to 0 the presenter
logs a warning, fires the no-meaningful-data alert once, and returns
without invoking the rendering collaborator; and if at least one sample
in either array is non-zero, that abort does not occur — the rendering
call is reached. -/
theorem load_aborts_on_all_zero
    (u v hu hv nxV nyV : JSVal) (ud vd : List JSVal)
    (hhu : getProp u "header" = .ok hu) (htu : truthy hu = true)
    (hhv : getProp v "header" = .ok hv) (htv : truthy hv = true)
    (hdu : getProp u "data" = .ok (.varr ud))
    (hdv : getProp v "data" = .ok (.varr vd))
    (hnx : getProp hu "nx" = .ok nxV)
    (hny : getProp hu "ny" = .ok nyV)
    (hlen : (strictEqNum (.vnum (.val ud.length)) (jsMul (toNumber nxV) (toNumber nyV)) &&
             strictEqNum (.vnum (.val vd.length)) (jsMul (toNumber nxV) (toNumber nyV))) = true) :
    ((∀ x ∈ ud, strictEqNum x (.val 0) = true) ∧ (∀ x ∈ vd, strictEqNum x (.val 0) = true) →
      loadWindDataBody (.varr [u, v]) =
        .ok { errors := 0, warns := 1, alerts := 1, rendered := none }) ∧
    (((∃ x ∈ ud, strictEqNum x (.val 0) = false) ∨ (∃ x ∈ vd, strictEqNum x (.val 0) = false)) →
      loadWindDataBody (.varr [u, v]) =
        .ok { errors := 0, warns := 0, alerts := 0,
              rendered := some (mkWindData hu (.varr ud) hv (.varr vd)) }) := by
  constructor
  · rintro ⟨hz1, hz2⟩
    rw [loadWindDataBody_shape_eval u v hu hv nxV nyV ud vd hhu hhv hdu hdv hnx hny, hlen]
    have h1 : ud.any nonzeroSpeed = false := by
      simp only [List.any_eq_false, nonzeroSpeed]
      intro x hx
      simp [hz1 x hx]
    have h2 : vd.any nonzeroSpeed = false := by
      simp only [List.any_eq_false, nonzeroSpeed]
      intro x hx
      simp [hz2 x hx]
    simp [h1, h2]
  · exact loadWindDataBody_renders u v hu hv nxV nyV ud vd hhu hhv hdu hdv hnx hny hlen

/-- A 2x2 all-zero component. -/
def zeroData : List JSVal :=
  [.vnum (.val 0), .vnum (.val 0), .vnum (.val 0), .vnum (.val 0)]

def zeroU : JSVal := .vobj [("header", sampleHeader), ("data", .varr zeroData)]

/-- Witness for C5: a 2x2 grid whose U and V samples are all zero. -/
theorem load_aborts_on_all_zero_witness :
    loadWindDataBody (.varr [zeroU, zeroU]) =
      .ok { errors := 0, warns := 1, alerts := 1, rendered := none } :=
  (load_aborts_on_all_zero zeroU zeroU sampleHeader sampleHeader
      (.vnum (.val 2)) (.vnum (.val 2)) zeroData zeroData
      rfl rfl rfl rfl rfl rfl rfl rfl rfl).1 (by decide)

/-! ### C6: a good payload is tagged and rendered exactly once -/

/-- C6: on a structurally valid, length-consistent, non-degenerate
payload the presenter invokes the rendering collaborator exactly once,
with a two-element payload whose first element carries the U header
tagged `parameterNumber = 2` and the original `uData`, and whose second
element carries the V header tagged `parameterNumber = 3` and the
original `vData`; no alert, error or warning fires. -/
theorem load_renders_tagged_payload
    (u v hu hv nxV nyV : JSVal) (ud vd : List JSVal)
    (hhu : getProp u "header" = .ok hu) (htu : truthy hu = true)
    (hhv : getProp v "header" = .ok hv) (htv : truthy hv = true)
    (hdu : getProp u "data" = .ok (.varr ud))
    (hdv : getProp v "data" = .ok (.varr vd))
    (hnx : getProp hu "nx" = .ok nxV)
    (hny : getProp hu "ny" = .ok nyV)
    (hlen : (strictEqNum (.vnum (.val ud.length)) (jsMul (toNumber nxV) (toNumber nyV)) &&
             strictEqNum (.vnum (.val vd.length)) (jsMul (toNumber nxV) (toNumber nyV))) = true)
    (hnz : (∃ x ∈ ud, strictEqNum x (.val 0) = false) ∨
           (∃ x ∈ vd, strictEqNum x (.val 0) = false)) :
    loadWindDataBody (.varr [u, v]) =
      .ok { errors := 0, warns := 0, alerts := 0,
            rendered := some (mkWindData hu (.varr ud) hv (.varr vd)) } ∧
    (∃ e0 e1 : JSVal,
      mkWindData hu (.varr ud) hv (.varr vd) = .varr [e0, e1] ∧
      getProp e0 "header" = .ok (tagHeader hu 2) ∧
      getProp (tagHeader hu 2) "parameterNumber" = .ok (.vnum (.val 2)) ∧
      getProp e0 "data" = .ok (.varr ud) ∧
      getProp e1 "header" = .ok (tagHeader hv 3) ∧
      getProp (tagHeader hv 3) "parameterNumber" = .ok (.vnum (.val 3)) ∧
      getProp e1 "data" = .ok (.varr vd)) := by
  refine ⟨loadWindDataBody_renders u v hu hv nxV nyV ud vd hhu hhv hdu hdv hnx hny hlen hnz,
          ⟨_, _, rfl, ?_, ?_, ?_, ?_, ?_, ?_⟩⟩
  · simp [getProp, lookupField]
  · simp [tagHeader, getProp, lookupField_setField_self]
  · simp [getProp, lookupField]
  · simp [getProp, lookupField]
  · simp [tagHeader, getProp, lookupField_setField_self]
  · simp [getProp, lookupField]

/-- Witness for C6: the spec's end-to-end scenario payload. -/
theorem load_renders_tagged_payload_witness :
    loadWindDataBody (.varr [sampleU, sampleV]) =
      .ok { errors := 0, warns := 0, alerts := 0,
            rendered := some (mkWindData sampleHeader (.varr sampleUData)
                                         sampleHeader (.varr sampleVData)) } ∧
    (∃ e0 e1 : JSVal,
      mkWindData sampleHeader (.varr sampleUData) sampleHeader (.varr sampleVData) =
        .varr [e0, e1] ∧
      getProp e0 "header" = .ok (tagHeader sampleHeader 2) ∧
      getProp (tagHeader sampleHeader 2) "parameterNumber" = .ok (.vnum (.val 2)) ∧
      getProp e0 "data" = .ok (.varr sampleUData) ∧
      getProp e1 "header" = .ok (tagHeader sampleHeader 3) ∧
      getProp (tagHeader sampleHeader 3) "parameterNumber" = .ok (.vnum (.val 3)) ∧
      getProp e1 "data" = .ok (.varr sampleVData)) :=
  load_renders_tagged_payload sampleU sampleV sampleHeader sampleHeader
    (.vnum (.val 2)) (.vnum (.val 2)) sampleUData sampleVData
    rfl rfl rfl rfl rfl rfl rfl rfl rfl
    (Or.inl ⟨.vnum (.val 1), by simp [sampleUData], rfl⟩)

/-! ### C7: tagging preserves all other header fields and the data -/

/-- C7: the tagging step preserves every field of the original header
other than `parameterNumber` (including overriding a provider-supplied
`parameterNumber`, since `setField` replaces an existing binding), and
the built payload passes the data arrays through unchanged.  The
original payload is not mutated: `tagHeader` and `mkWindData` are pure
constructions that leave their arguments untouched, which the purely
functional embedding makes intrinsic. -/
theorem tagHeader_preserves_fields
    (fs : List (String × JSVal)) (pn : ℤ) (k : String) (hk : k ≠ "parameterNumber") :
    getProp (tagHeader (.vobj fs) pn) k = getProp (.vobj fs) k ∧
    getProp (tagHeader (.vobj fs) pn) "parameterNumber" = .ok (.vnum (.val pn)) ∧
    (∀ uH uD vH vD : JSVal, ∃ e0 e1 : JSVal,
      mkWindData uH uD vH vD = .varr [e0, e1] ∧
      getProp e0 "header" = .ok (tagHeader uH 2) ∧ getProp e0 "data" = .ok uD ∧
      getProp e1 "header" = .ok (tagHeader vH 3) ∧ getProp e1 "data" = .ok vD) := by
  refine ⟨?_, ?_, ?_⟩
  · simp [tagHeader, getProp, spreadFields, lookupField_setField_other _ _ _ _ hk]
  · simp [tagHeader, getProp, lookupField_setField_self]
  · intro uH uD vH vD
    exact ⟨_, _, rfl, by simp [getProp, lookupField], by simp [getProp, lookupField],
           by simp [getProp, lookupField], by simp [getProp, lookupField]⟩

/-- A provider header that already carries a `parameterNumber`. -/
def providerHeader : List (String × JSVal) :=
  [("nx", .vnum (.val 2)), ("ny", .vnum (.val 2)), ("parameterNumber", .vnum (.val 99))]

/-- Witness for C7: tagging a header that carries `nx` and a
provider-supplied `parameterNumber = 99` keeps `nx` and overrides the
`parameterNumber` to 2. -/
theorem tagHeader_preserves_fields_witness :
    (getProp (tagHeader (.vobj providerHeader) 2) "nx" =
       getProp (.vobj providerHeader) "nx" ∧
     getProp (tagHeader (.vobj providerHeader) 2) "parameterNumber" =
       .ok (.vnum (.val 2)) ∧
     (∀ uH uD vH vD : JSVal, ∃ e0 e1 : JSVal,
       mkWindData uH uD vH vD = .varr [e0, e1] ∧
       getProp e0 "header" = .ok (tagHeader uH 2) ∧ getProp e0 "data" = .ok uD ∧
       getProp e1 "header" = .ok (tagHeader vH 3) ∧ getProp e1 "data" = .ok vD)) :=
  tagHeader_preserves_fields providerHeader 2 "nx" (by decide)

/-! ### C9: a NaN grid size always takes the mismatch branch -/

/-- C9: on a payload that passes structural validation but whose U
header is missing `nx` or `ny` or holds non-numeric values for them
(so the product is NaN), the presenter always takes the
length-mismatch abort and never invokes the rendering collaborator —
`undefined` converts to NaN, NaN is absorbing under multiplication,
and nothing is strictly equal to NaN; conversely the rendering call is
reachable only when `nx * ny` is a number equal to both data
lengths. -/
theorem load_nan_grid_never_renders
    (u v hu hv nxV nyV : JSVal) (ud vd : List JSVal)
    (hhu : getProp u "header" = .ok hu) (htu : truthy hu = true)
    (hhv : getProp v "header" = .ok hv) (htv : truthy hv = true)
    (hdu : getProp u "data" = .ok (.varr ud))
    (hdv : getProp v "data" = .ok (.varr vd))
    (hnx : getProp hu "nx" = .ok nxV)
    (hny : getProp hu "ny" = .ok nyV) :
    ((toNumber nxV = .nan ∨ toNumber nyV = .nan) →
      loadWindDataBody (.varr [u, v]) =
        .ok { errors := 1, warns := 0, alerts := 1, rendered := none }) ∧
    (∀ (r : LoadResult) (w : JSVal),
      loadWindDataBody (.varr [u, v]) = .ok r → r.rendered = some w →
      ∃ q : ℤ, jsMul (toNumber nxV) (toNumber nyV) = .val q ∧
        (ud.length : ℤ) = q ∧ (vd.length : ℤ) = q) := by
  rw [loadWindDataBody_shape_eval u v hu hv nxV nyV ud vd hhu hhv hdu hdv hnx hny]
  constructor
  · intro h
    rw [jsMul_nan h]
    simp [strictEqNum_nan]
  · intro r w hr hw
    by_cases hc : (strictEqNum (.vnum (.val ud.length)) (jsMul (toNumber nxV) (toNumber nyV)) &&
                   strictEqNum (.vnum (.val vd.length)) (jsMul (toNumber nxV) (toNumber nyV)))
                  = false
    · rw [if_pos hc] at hr
      have : r = { errors := 1, warns := 0, alerts := 1, rendered := none } := by
        exact (Except.ok.injEq _ _).mp hr.symm
      rw [this] at hw
      simp at hw
    · rw [if_neg hc] at hr
      have hb : (strictEqNum (.vnum (.val ud.length)) (jsMul (toNumber nxV) (toNumber nyV)) &&
                 strictEqNum (.vnum (.val vd.length)) (jsMul (toNumber nxV) (toNumber nyV)))
                = true := by
        cases hcc : (strictEqNum (.vnum (.val ud.length)) (jsMul (toNumber nxV) (toNumber nyV)) &&
                     strictEqNum (.vnum (.val vd.length)) (jsMul (toNumber nxV) (toNumber nyV)))
        · exact absurd hcc hc
        · rfl
      have hpair := Bool.and_eq_true_iff.mp hb
      cases he : jsMul (toNumber nxV) (toNumber nyV) with
      | nan =>
        rw [he, strictEqNum_nan] at hpair
        exact absurd hpair.1 (by simp)
      | val q =>
        rw [he] at hpair
        exact ⟨q, rfl, strictEqNum_val_eq hpair.1, strictEqNum_val_eq hpair.2⟩

/-- A payload whose U header lacks `nx`. -/
def noNxHeader : JSVal := .vobj [("ny", .vnum (.val 2))]

def noNxU : JSVal := .vobj [("header", noNxHeader), ("data", .varr sampleUData)]

/-- Witness for C9: the U header lacks `nx`, so `nx` reads as
`undefined`, the product is NaN, and the mismatch abort fires. -/
theorem load_nan_grid_never_renders_witness :
    loadWindDataBody (.varr [noNxU, sampleV]) =
      .ok { errors := 1, warns := 0, alerts := 1, rendered := none } :=
  (load_nan_grid_never_renders noNxU sampleV noNxHeader sampleHeader
      .vundefined (.vnum (.val 2)) sampleUData sampleVData
      rfl rfl rfl rfl rfl rfl rfl rfl).1 (Or.inl rfl)

/-! ### C10: an empty 0-sized grid passes the length check but aborts
as having no meaningful data -/

/-- C10: on a structurally valid payload whose U header declares
`nx * ny = 0` and whose `uData` and `vData` are both empty arrays, the
length check passes (`0 === 0`) but the presenter aborts with the
no-meaningful-data warning and alert; the empty grid never reaches the
rendering collaborator. -/
theorem load_empty_grid_aborts
    (u v hu hv nxV nyV : JSVal)
    (hhu : getProp u "header" = .ok hu) (htu : truthy hu = true)
    (hhv : getProp v "header" = .ok hv) (htv : truthy hv = true)
    (hdu : getProp u "data" = .ok (.varr ([] : List JSVal)))
    (hdv : getProp v "data" = .ok (.varr ([] : List JSVal)))
    (hnx : getProp hu "nx" = .ok nxV)
    (hny : getProp hu "ny" = .ok nyV)
    (hzero : jsMul (toNumber nxV) (toNumber nyV) = .val 0) :
    loadWindDataBody (.varr [u, v]) =
      .ok { errors := 0, warns := 1, alerts := 1, rendered := none } := by
  rw [loadWindDataBody_shape_eval u v hu hv nxV nyV [] [] hhu hhv hdu hdv hnx hny, hzero]
  simp [strictEqNum]

/-- A component with a 0x5 grid and no samples. -/
def emptyGridHeader : JSVal := .vobj [("nx", .vnum (.val 0)), ("ny", .vnum (.val 5))]

def emptyGridU : JSVal := .vobj [("header", emptyGridHeader), ("data", .varr [])]

/-- Witness for C10: header `nx = 0, ny = 5` with empty data arrays. -/
theorem load_empty_grid_aborts_witness :
    loadWindDataBody (.varr [emptyGridU, emptyGridU]) =
      .ok { errors := 0, warns := 1, alerts := 1, rendered := none } :=
  load_empty_grid_aborts emptyGridU emptyGridU emptyGridHeader emptyGridHeader
    (.vnum (.val 0)) (.vnum (.val 5))
    rfl rfl rfl rfl rfl rfl rfl rfl rfl

/-! ### C8: no exception escapes the pipeline -/

theorem getProp_ok_of_truthy (h : JSVal) (key : String) (ht : truthy h = true) :
    ∃ w, getProp h key = .ok w := by
  cases h with
  | vnull => simp [truthy] at ht
  | vundefined => simp [truthy] at ht
  | vbool b => exact ⟨_, rfl⟩
  | vnum n => exact ⟨_, rfl⟩
  | vstr s =>
    by_cases hk : key = "length"
    · refine ⟨.vnum (.val s.length), ?_⟩
      simp only [getProp, if_pos hk]
    · refine ⟨.vundefined, ?_⟩
      simp only [getProp, if_neg hk]
  | varr xs =>
    by_cases hk : key = "length"
    · refine ⟨.vnum (.val xs.length), ?_⟩
      simp only [getProp, if_pos hk]
    · refine ⟨.vundefined, ?_⟩
      simp only [getProp, if_neg hk]
  | vobj fs => exact ⟨_, rfl⟩

/-- A value returned from the try block passed the format check. -/
theorem tryFetchBody_some {o : FetchOutcome} {d : JSVal}
    (h : tryFetchBody o = .ok (some d)) : invalidFormat d = .ok false := by
  unfold tryFetchBody at h
  split at h
  · simp at h
  · split at h
    · simp at h
    · split at h
      · simp at h
      · split at h
        · simp at h
        · simp at h
        · rename_i data heq
          simp only [Except.ok.injEq, Option.some.injEq] at h
          rwa [h] at heq

/-- A payload returned by the retry loop came out of some attempt's try
block. -/
theorem fetchGo_some (env : Nat → FetchOutcome) (fuel : Nat) :
    ∀ attempt d, (fetchGo env attempt fuel).result = some d →
      ∃ a, tryFetchBody (env a) = .ok (some d) := by
  induction fuel with
  | zero =>
    intro attempt d h
    rw [fetchGo.eq_1] at h
    cases htb : tryFetchBody (env attempt) with
    | ok ob =>
      cases ob with
      | some dd =>
        rw [htb] at h
        simp at h
        exact ⟨attempt, by rw [htb, h]⟩
      | none =>
        rw [htb] at h
        simp at h
    | error e =>
      rw [htb] at h
      simp at h
  | succ f ih =>
    intro attempt d h
    rw [fetchGo.eq_2] at h
    cases htb : tryFetchBody (env attempt) with
    | ok ob =>
      cases ob with
      | some dd =>
        rw [htb] at h
        simp at h
        exact ⟨attempt, by rw [htb, h]⟩
      | none =>
        rw [htb] at h
        simp at h
    | error e =>
      rw [htb] at h
      simp at h
      exact ih (attempt + 1) d h

/-- A body passing the format check has the two-component shape the
check tested, with no throw along the way. -/
theorem invalidFormat_false_elim {d : JSVal} (h : invalidFormat d = .ok false) :
    ∃ (e0 e1 h0 h1 : JSVal) (ud vd : List JSVal),
      d = .varr [e0, e1] ∧
      getProp e0 "header" = .ok h0 ∧ truthy h0 = true ∧
      getProp e1 "header" = .ok h1 ∧ truthy h1 = true ∧
      getProp e0 "data" = .ok (.varr ud) ∧
      getProp e1 "data" = .ok (.varr vd) := by
  unfold invalidFormat at h
  split at h
  · rename_i e0 e1
    split at h
    · simp at h
    · rename_i h0 hh0
      split at h
      · simp at h
      · rename_i ht0
        have ht0t : truthy h0 = true := by
          revert ht0
          cases truthy h0 <;> simp
        split at h
        · simp at h
        · rename_i h1 hh1
          split at h
          · simp at h
          · rename_i ht1
            have ht1t : truthy h1 = true := by
              revert ht1
              cases truthy h1 <;> simp
            split at h
            · simp at h
            · rename_i d0 hd0
              split at h
              · simp at h
              · rename_i ha0
                obtain ⟨ud, hud⟩ : ∃ xs, d0 = JSVal.varr xs := by
                  revert ha0
                  cases d0 <;> simp [isArray]
                split at h
                · simp at h
                · rename_i d1 hd1
                  split at h
                  · simp at h
                  · rename_i ha1
                    obtain ⟨vd, hvd⟩ : ∃ xs, d1 = JSVal.varr xs := by
                      revert ha1
                      cases d1 <;> simp [isArray]
                    subst hud
                    subst hvd
                    exact ⟨e0, e1, h0, h1, ud, vd, rfl, hh0, ht0t, hh1, ht1t, hd0, hd1⟩
  · simp at h

/-- The presenter body cannot throw on a payload of the shape the
format check guarantees. -/
theorem loadWindDataBody_ok_of_shape
    (u v hu hv : JSVal) (ud vd : List JSVal)
    (hhu : getProp u "header" = .ok hu) (htu : truthy hu = true)
    (hhv : getProp v "header" = .ok hv)
    (hdu : getProp u "data" = .ok (.varr ud))
    (hdv : getProp v "data" = .ok (.varr vd)) :
    ∃ r : LoadResult, loadWindDataBody (.varr [u, v]) = .ok r := by
  obtain ⟨nxV, hnx⟩ := getProp_ok_of_truthy hu "nx" htu
  obtain ⟨nyV, hny⟩ := getProp_ok_of_truthy hu "ny" htu
  rw [loadWindDataBody_shape_eval u v hu hv nxV nyV ud vd hhu hhv hdu hdv hnx hny]
  split_ifs <;> exact ⟨_, rfl⟩

/-- `loadWindData` on a null fetch result: the silent return. -/
theorem loadWindData_of_none (env : Nat → FetchOutcome)
    (h : (fetchWindData env 1 3).result = none) :
    loadWindData env =
      .ok { errors := 0, warns := 0, alerts := (fetchWindData env 1 3).alerts,
            rendered := none } := by
  simp only [loadWindData]
  rw [h]

/-- `loadWindData` on a non-null fetch result runs the presenter body
on the fetched payload. -/
theorem loadWindData_of_some (env : Nat → FetchOutcome) (d : JSVal)
    (h : (fetchWindData env 1 3).result = some d) :
    loadWindData env =
      (match loadWindDataBody d with
       | .error e => .error e
       | .ok r =>
         .ok { errors := r.errors, warns := r.warns,
               alerts := r.alerts + (fetchWindData env 1 3).alerts,
               rendered := r.rendered }) := by
  simp only [loadWindData]
  rw [h]

/-- C8: for every possible environment — any status, any body,
including bodies that are not valid JSON or whose elements are not
objects — the pipeline never propagates an exception to the caller:
`fetchWindData` is total by construction (every throw inside its try
block is consumed by the catch clause enclosing lines 20-41), and
`loadWindData`, which composes it with the presenter body, always
returns `Except.ok` — every failure path ends in a result record, not a
thrown error. -/
theorem pipeline_never_throws (env : Nat → FetchOutcome) :
    ∃ r : LoadResult, loadWindData env = .ok r := by
  cases hres : (fetchWindData env 1 3).result with
  | none => exact ⟨_, loadWindData_of_none env hres⟩
  | some d =>
    obtain ⟨a, hta⟩ := fetchGo_some env 2 1 d hres
    obtain ⟨e0, e1, h0, h1, ud, vd, hd, hh0, ht0, hh1, ht1, hd0, hd1⟩ :=
      invalidFormat_false_elim (tryFetchBody_some hta)
    subst hd
    obtain ⟨r0, hr0⟩ :=
      loadWindDataBody_ok_of_shape e0 e1 h0 h1 ud vd hh0 ht0 hh1 hd0 hd1
    rw [loadWindData_of_some env _ hres, hr0]
    exact ⟨_, rfl⟩

end WindLeaflet
